import Mathlib

/-!
# Verification of the drawille terminal-graphics canvases

Shallow embedding of `src/block.rs` (colored half-block canvas) and
`src/braille.rs` (Braille dot canvas and turtle), with theorems settling the
specification claims about them.

The sparse `HashMap<(usize, usize), V>` grids are modelled as association
lists with insert-or-replace semantics; `usize` values are modelled as `Nat`;
Rust code paths that can `panic!` are modelled with `Except`/`Option`, the
`Except` error carrying the state of the value at the moment of the panic.
-/

set_option maxHeartbeats 1000000

/-- Lookup in an association-list model of `HashMap`. -/
def findKV {α : Type} [DecidableEq α] {β : Type} : List (α × β) → α → Option β
  | [], _ => none
  | (k, v) :: rest, k' => if k = k' then some v else findKV rest k'

/-- Insert-or-replace in an association-list model of `HashMap`. -/
def insertKV {α : Type} [DecidableEq α] {β : Type} : List (α × β) → α → β → List (α × β)
  | [], k', v' => [(k', v')]
  | (k, v) :: rest, k', v' =>
      if k = k' then (k', v') :: rest else (k, v) :: insertKV rest k' v'

/-- Models Rust `iterator.max().unwrap_or(0)` over a list of `usize`. -/
def natListMax (l : List Nat) : Nat := l.foldr max 0

namespace Block

/-- `src/block.rs` `Color`: 8-value enumeration, discriminants 0-7. -/
inductive Color where
  | Black
  | Red
  | Green
  | Yellow
  | Blue
  | Magenta
  | Cyan
  | White
deriving DecidableEq, Repr

/-- Rust `color as u32`: the discriminant. -/
def Color.ord : Color → Nat
  | .Black => 0
  | .Red => 1
  | .Green => 2
  | .Yellow => 3
  | .Blue => 4
  | .Magenta => 5
  | .Cyan => 6
  | .White => 7

/-- `src/block.rs` `struct ColorPair(Color, Color)`. -/
structure ColorPair where
  fst : Color
  snd : Color
deriving DecidableEq, Repr

/-- `src/block.rs` `enum Pixel`: a text glyph with colors, or a pair of
half-block sub-pixel colors. -/
inductive Pixel where
  | Char (cp : ColorPair) (c : Char)
  | Pair (cp : ColorPair)
deriving DecidableEq, Repr

/-- `impl Default for Pixel`: `Pixel::Char(ColorPair(Black, Black), ' ')`. -/
def Pixel.default : Pixel := Pixel.Char ⟨Color.Black, Color.Black⟩ ' '

/-- `Pixel::index` (read): panics (`none`) on a `Char` pixel or an index
outside `{0, 1}`. -/
def Pixel.index (p : Pixel) (i : Nat) : Option Color :=
  match p with
  | Pixel.Pair cp =>
      match i with
      | 0 => some cp.fst
      | 1 => some cp.snd
      | _ => none
  | _ => none

/-- `impl IndexMut for Pixel` used as `block[i] = col`: panics (`none`) on a
`Char` pixel or an index outside `{0, 1}`. -/
def Pixel.indexWrite (p : Pixel) (i : Nat) (col : Color) : Option Pixel :=
  match p with
  | Pixel.Pair cp =>
      match i with
      | 0 => some (Pixel.Pair ⟨col, cp.snd⟩)
      | 1 => some (Pixel.Pair ⟨cp.fst, col⟩)
      | _ => none
  | _ => none

/-- `src/block.rs` `struct Canvas`. -/
structure Canvas where
  blocks : List ((Nat × Nat) × Pixel)
  width : Nat
  height : Nat
deriving DecidableEq, Repr

/-- `Canvas::new(width, height)`: bounds stored as `width / 2`, `height / 4`. -/
def Canvas.new (width height : Nat) : Canvas :=
  { blocks := [], width := width / 2, height := height / 4 }

/-- `Canvas::clear`: empties the grid only. -/
def Canvas.clear (c : Canvas) : Canvas :=
  { c with blocks := [] }

/-- `Canvas::text`: writes each character of `s` at `(x + i, y / 2)` as
`Pixel::Char(ColorPair(bg, fg), ch)`, overwriting occupied and vacant cells
alike. -/
def Canvas.text (c : Canvas) (x y : Nat) (fg bg : Color) (s : List Char) : Canvas :=
  { c with
    blocks := (s.enum).foldl
      (fun m ic => insertKV m (x + ic.1, y / 2) (Pixel.Char ⟨bg, fg⟩ ic.2))
      c.blocks }

/-- `Canvas::set`: `entry((x, y/2)).or_insert(default)`, convert a `Char`
cell to `Pair(Black, Black)`, then `block[y % 2] = col`.  The `Except` error
(unreachable here) carries the map state at the would-be panic. -/
def Canvas.set (c : Canvas) (x y : Nat) (col : Color) : Except Canvas Canvas :=
  let key : Nat × Nat := (x, y / 2)
  let blocks1 :=
    match findKV c.blocks key with
    | some _ => c.blocks
    | none => insertKV c.blocks key Pixel.default
  let block0 := (findKV blocks1 key).getD Pixel.default
  let block1 :=
    match block0 with
    | Pixel.Char _ _ => Pixel.Pair ⟨Color.Black, Color.Black⟩
    | p => p
  match Pixel.indexWrite block1 (y % 2) col with
  | some b => Except.ok { c with blocks := insertKV blocks1 key b }
  | none => Except.error { c with blocks := insertKV blocks1 key block1 }

/-- `Canvas::unset`: `entry((x, y/2)).or_insert(default)` then
`block[y % 2] = Black` with no `Char`-to-`Pair` conversion; indexing a `Char`
cell panics (`Except.error`, carrying the map state at the panic, i.e. with
the default already materialized on the vacant path). -/
def Canvas.unset (c : Canvas) (x y : Nat) : Except Canvas Canvas :=
  let key : Nat × Nat := (x, y / 2)
  let blocks1 :=
    match findKV c.blocks key with
    | some _ => c.blocks
    | none => insertKV c.blocks key Pixel.default
  let block0 := (findKV blocks1 key).getD Pixel.default
  match Pixel.indexWrite block0 (y % 2) Color.Black with
  | some b => Except.ok { c with blocks := insertKV blocks1 key b }
  | none => Except.error { c with blocks := blocks1 }

/-- `Canvas::get`: the source computes `let (col, row) = (x, y / 2)` and then
looks up the key `(row, col)` — that is `(y / 2, x)`, transposed relative to
the `(x, y / 2)` key written by `set`/`unset`.  Absent cell yields `Black`;
reading a `Char` cell panics (`none`). -/
def Canvas.get (c : Canvas) (x y : Nat) : Option Color :=
  match findKV c.blocks (y / 2, x) with
  | none => some Color.Black
  | some p => p.index (y % 2)

/-- The state a mutating call leaves behind, whether it returned or panicked. -/
def stateOf (e : Except Canvas Canvas) : Canvas :=
  match e with
  | Except.ok c => c
  | Except.error c => c

/-- `Canvas::line_vec` from `src/block.rs`: truncating parametric
interpolation between the endpoints (the `as usize` casts are of
non-negative values, modelled by `Int.toNat`). -/
def line_vec (x1 y1 x2 y2 : Nat) : List (Nat × Nat) :=
  let xdiff := max x1 x2 - min x1 x2
  let ydiff := max y1 y2 - min y1 y2
  let xdir : Int := if x1 ≤ x2 then 1 else -1
  let ydir : Int := if y1 ≤ y2 then 1 else -1
  let r := max xdiff ydiff
  (List.range (r + 1)).map (fun i =>
    let y : Int := if ydiff ≠ 0 then (y1 : Int) + (((i * ydiff) / r : Nat) : Int) * ydir else (y1 : Int)
    let x : Int := if xdiff ≠ 0 then (x1 : Int) + (((i * xdiff) / r : Nat) : Int) * xdir else (x1 : Int)
    (x.toNat, y.toNat))

/-- `Canvas::line`: `set` every rasterized point (`set` never panics; the
fold carries the resulting state either way). -/
def Canvas.line (c : Canvas) (x1 y1 x2 y2 : Nat) (col : Color) : Canvas :=
  (line_vec x1 y1 x2 y2).foldl (fun cc p => stateOf (cc.set p.1 p.2 col)) c

/-- `impl Display for ColorPair`: background escape then foreground escape. -/
def ColorPair.display (cp : ColorPair) : String :=
  "\x1b[0;4" ++ toString cp.fst.ord ++ "m" ++ "\x1b[3" ++ toString cp.snd.ord ++ "m"

/-- `impl Display for Pixel`. -/
def Pixel.display (p : Pixel) : String :=
  match p with
  | Pixel.Char cp a => cp.display ++ String.singleton a
  | Pixel.Pair a => a.display ++ "▄"

/-- `Canvas::rows`: effective bounds are the max of the configured bounds and
the largest key component present; each row ends with the reset escape. -/
def Canvas.rows (c : Canvas) : List String :=
  let maxrow := max c.width (natListMax (c.blocks.map (fun kv => kv.1.1)))
  let maxcol := max c.height (natListMax (c.blocks.map (fun kv => kv.1.2)))
  (List.range (maxcol + 1)).map (fun y =>
    let row := (List.range (maxrow + 1)).foldl
      (fun s x => s ++ ((findKV c.blocks (x, y)).getD Pixel.default).display) ""
    row ++ "\x1b[0m")

/-- `Canvas::frame`: rows joined with newlines. -/
def Canvas.frame (c : Canvas) : String :=
  String.intercalate "\n" c.rows

end Block

namespace Braille

/-- `src/braille.rs` `PIXEL_MAP`, indexed by `(y mod 4, x mod 2)`. -/
def PIXEL_MAP : Nat → Nat → Nat
  | 0, 0 => 0x01
  | 0, 1 => 0x08
  | 1, 0 => 0x02
  | 1, 1 => 0x10
  | 2, 0 => 0x04
  | 2, 1 => 0x20
  | 3, 0 => 0x40
  | 3, 1 => 0x80
  | _, _ => 0

/-- `src/braille.rs` `struct Canvas`: sparse grid of Braille dot masks. -/
structure Canvas where
  chars : List ((Nat × Nat) × Nat)
  width : Nat
  height : Nat
deriving DecidableEq, Repr

/-- `Canvas::new(width, height)`: bounds stored as `width / 2`, `height / 4`. -/
def Canvas.new (width height : Nat) : Canvas :=
  { chars := [], width := width / 2, height := height / 4 }

/-- `Canvas::clear`: empties the grid only. -/
def Canvas.clear (c : Canvas) : Canvas :=
  { c with chars := [] }

/-- `Canvas::set`: materialize cell `(x/2, y/4)` as 0 if vacant, then OR in
the bit for `(y mod 4, x mod 2)`. -/
def Canvas.set (c : Canvas) (x y : Nat) : Canvas :=
  let key : Nat × Nat := (x / 2, y / 4)
  let chars1 :=
    match findKV c.chars key with
    | some _ => c.chars
    | none => insertKV c.chars key 0
  let chars2 :=
    match findKV chars1 key with
    | some a => insertKV chars1 key (Nat.lor a (PIXEL_MAP (y % 4) (x % 2)))
    | none => chars1
  { c with chars := chars2 }

/-- `Canvas::unset`: materialize the cell, then AND-NOT the bit away. -/
def Canvas.unset (c : Canvas) (x y : Nat) : Canvas :=
  let key : Nat × Nat := (x / 2, y / 4)
  let chars1 :=
    match findKV c.chars key with
    | some _ => c.chars
    | none => insertKV c.chars key 0
  let chars2 :=
    match findKV chars1 key with
    | some a => insertKV chars1 key (Nat.ldiff a (PIXEL_MAP (y % 4) (x % 2)))
    | none => chars1
  { c with chars := chars2 }

/-- `Canvas::toggle`: materialize the cell, then XOR the bit. -/
def Canvas.toggle (c : Canvas) (x y : Nat) : Canvas :=
  let key : Nat × Nat := (x / 2, y / 4)
  let chars1 :=
    match findKV c.chars key with
    | some _ => c.chars
    | none => insertKV c.chars key 0
  let chars2 :=
    match findKV chars1 key with
    | some a => insertKV chars1 key (Nat.xor a (PIXEL_MAP (y % 4) (x % 2)))
    | none => chars1
  { c with chars := chars2 }

/-- `Canvas::get`: the source computes `let (col, row) = (x / 2, y / 4)` and
looks up the key `(row, col)` — that is `(y / 4, x / 2)`, transposed relative
to the `(x / 2, y / 4)` key written by `set`/`unset`/`toggle`.  Absent cell
yields `false`. -/
def Canvas.get (c : Canvas) (x y : Nat) : Bool :=
  let dot_index := PIXEL_MAP (y % 4) (x % 2)
  match findKV c.chars (y / 4, x / 2) with
  | none => false
  | some ch => Nat.land ch dot_index != 0

/-- `Canvas::line_vec` from `src/braille.rs` (textually identical to the one
in `src/block.rs`). -/
def line_vec (x1 y1 x2 y2 : Nat) : List (Nat × Nat) :=
  let xdiff := max x1 x2 - min x1 x2
  let ydiff := max y1 y2 - min y1 y2
  let xdir : Int := if x1 ≤ x2 then 1 else -1
  let ydir : Int := if y1 ≤ y2 then 1 else -1
  let r := max xdiff ydiff
  (List.range (r + 1)).map (fun i =>
    let y : Int := if ydiff ≠ 0 then (y1 : Int) + (((i * ydiff) / r : Nat) : Int) * ydir else (y1 : Int)
    let x : Int := if xdiff ≠ 0 then (x1 : Int) + (((i * xdiff) / r : Nat) : Int) * xdir else (x1 : Int)
    (x.toNat, y.toNat))

/-- `Canvas::line`: `set` every rasterized point. -/
def Canvas.line (c : Canvas) (x1 y1 x2 y2 : Nat) : Canvas :=
  (line_vec x1 y1 x2 y2).foldl (fun cc p => cc.set p.1 p.2) c

/-- `Canvas::rows`: a space for mask 0, otherwise the Braille character at
`0x2800 + mask` (always a valid scalar value for masks 1-255, so
`char::from_u32(..).unwrap()` is modelled by `Char.ofNat`). -/
def Canvas.rows (c : Canvas) : List String :=
  let maxrow := max c.width (natListMax (c.chars.map (fun kv => kv.1.1)))
  let maxcol := max c.height (natListMax (c.chars.map (fun kv => kv.1.2)))
  (List.range (maxcol + 1)).map (fun y =>
    (List.range (maxrow + 1)).foldl
      (fun s x =>
        let ch := (findKV c.chars (x, y)).getD 0
        s.push (if ch = 0 then ' ' else Char.ofNat (0x2800 + ch)))
      "")

/-- `Canvas::frame`: rows joined with newlines. -/
def Canvas.frame (c : Canvas) : String :=
  String.intercalate "\n" c.rows

end Braille

/-- `src/braille.rs` `fn degrees_to_radians` (`f32` modelled as `Float`;
`f32::consts::PI` is 3.1415927410125732… as a double). -/
def degrees_to_radians (deg : Float) : Float :=
  deg * (3.1415927410125732 / 180.0)

/-- Models `cmp::max(0, v.round() as isize) as usize` from `Turtle::teleport`:
round, truncate, clamp below at zero. -/
def roundClampUsize (v : Float) : Nat :=
  if v.round < 0 then 0 else v.round.toUInt64.toNat

/-- `src/braille.rs` `struct Turtle`. -/
structure Turtle where
  x : Float
  y : Float
  brush : Bool
  rotation : Float
  cvs : Braille.Canvas

/-- `Turtle::new`: brush down, facing right, owning `Canvas::new(0, 0)`. -/
def Turtle.new (x y : Float) : Turtle :=
  { cvs := Braille.Canvas.new 0 0, x := x, y := y, brush := true, rotation := 0.0 }

/-- `Turtle::from_canvas`: brush down, facing right, with the given canvas. -/
def Turtle.from_canvas (x y : Float) (cvs : Braille.Canvas) : Turtle :=
  { cvs := cvs, x := x, y := y, brush := true, rotation := 0.0 }

/-- `Turtle::width` (builder): sets the canvas width in cell units directly. -/
def Turtle.width (t : Turtle) (w : Nat) : Turtle :=
  { t with cvs := { t.cvs with width := w } }

/-- `Turtle::height` (builder): sets the canvas height in cell units directly. -/
def Turtle.height (t : Turtle) (h : Nat) : Turtle :=
  { t with cvs := { t.cvs with height := h } }

/-- `Turtle::up`: lifts the brush. -/
def Turtle.up (t : Turtle) : Turtle :=
  { t with brush := false }

/-- `Turtle::down`: puts the brush down. -/
def Turtle.down (t : Turtle) : Turtle :=
  { t with brush := true }

/-- `Turtle::toggle`: flips the brush. -/
def Turtle.toggle (t : Turtle) : Turtle :=
  { t with brush := !t.brush }

/-- `Turtle::teleport`: when the brush is down, draw a line between the
rounded-and-clamped old and new positions; then unconditionally store the
unclamped new position. -/
def Turtle.teleport (t : Turtle) (x y : Float) : Turtle :=
  let cvs :=
    if t.brush then
      t.cvs.line (roundClampUsize t.x) (roundClampUsize t.y)
        (roundClampUsize x) (roundClampUsize y)
    else t.cvs
  { t with x := x, y := y, cvs := cvs }

/-- `Turtle::forward`. -/
def Turtle.forward (t : Turtle) (dist : Float) : Turtle :=
  let x := t.x + (degrees_to_radians t.rotation).cos * dist
  let y := t.y + (degrees_to_radians t.rotation).sin * dist
  t.teleport x y

/-- `Turtle::back`. -/
def Turtle.back (t : Turtle) (dist : Float) : Turtle :=
  t.forward (-dist)

/-- `Turtle::right`. -/
def Turtle.right (t : Turtle) (angle : Float) : Turtle :=
  { t with rotation := t.rotation + angle }

/-- `Turtle::left`. -/
def Turtle.left (t : Turtle) (angle : Float) : Turtle :=
  { t with rotation := t.rotation - angle }

/-- `Turtle::frame`. -/
def Turtle.frame (t : Turtle) : String :=
  t.cvs.frame

/-!
## The spec's rasterization formula (§4.3)

Written from the specification's words, to be compared with the source's
`line_vec`: `dx = |x2-x1|`, `dy = |y2-y1|`, `dirx/diry ∈ {-1,+1}` by
comparison, `r = max(dx, dy)`; for `i` in `0..=r` the point
`(x1 + dirx*floor(i*dx/r), y1 + diry*floor(i*dy/r))`; when `r = 0` the
single point `(x1, y1)`.
-/
def rasterSpecSeq (x1 y1 x2 y2 : Nat) : List (Nat × Nat) :=
  let dx := ((x2 : Int) - (x1 : Int)).natAbs
  let dy := ((y2 : Int) - (y1 : Int)).natAbs
  let dirx : Int := if x1 ≤ x2 then 1 else -1
  let diry : Int := if y1 ≤ y2 then 1 else -1
  let r := max dx dy
  if r = 0 then [(x1, y1)]
  else
    (List.range (r + 1)).map (fun i =>
      (((x1 : Int) + dirx * (((i * dx) / r : Nat) : Int)).toNat,
       ((y1 : Int) + diry * (((i * dy) / r : Nat) : Int)).toNat))

lemma natAbs_sub_eq (a b : Nat) : ((b : Int) - (a : Int)).natAbs = max a b - min a b := by
  rcases Nat.le_total a b with h | h
  · rw [Nat.max_eq_right h, Nat.min_eq_left h]
    omega
  · rw [Nat.max_eq_left h, Nat.min_eq_right h]
    omega

lemma raster_point_eq (x1 r i xdiff : Nat) (dir : Int) :
    (if xdiff ≠ 0 then (x1 : Int) + (((i * xdiff) / r : Nat) : Int) * dir else (x1 : Int))
      = (x1 : Int) + dir * (((i * xdiff) / r : Nat) : Int) := by
  by_cases hx : xdiff = 0
  · simp [hx]
  · rw [if_pos hx]
    ring

lemma braille_line_vec_eq_spec (x1 y1 x2 y2 : Nat) :
    Braille.line_vec x1 y1 x2 y2 = rasterSpecSeq x1 y1 x2 y2 := by
  simp only [Braille.line_vec, rasterSpecSeq, natAbs_sub_eq]
  by_cases h0 : max (max x1 x2 - min x1 x2) (max y1 y2 - min y1 y2) = 0
  · have hx0 : max x1 x2 - min x1 x2 = 0 := by omega
    have hy0 : max y1 y2 - min y1 y2 = 0 := by omega
    simp [h0, hx0, hy0]
  · rw [if_neg h0]
    refine List.map_congr_left ?_
    intro i _
    dsimp only
    rw [raster_point_eq, raster_point_eq]

lemma block_line_vec_eq_braille : Block.line_vec = Braille.line_vec := rfl

lemma endpoints_mem_line_vec (x1 y1 x2 y2 : Nat) :
    (x1, y1) ∈ Braille.line_vec x1 y1 x2 y2 ∧ (x2, y2) ∈ Braille.line_vec x1 y1 x2 y2 := by
  rw [braille_line_vec_eq_spec]
  simp only [rasterSpecSeq]
  by_cases h0 : max ((x2 : Int) - (x1 : Int)).natAbs ((y2 : Int) - (y1 : Int)).natAbs = 0
  · rcases Nat.max_eq_zero_iff.mp h0 with ⟨ha, hb⟩
    have hx : x2 = x1 := by omega
    have hy : y2 = y1 := by omega
    rw [if_pos h0]
    subst hx
    subst hy
    simp
  · have hr : 0 < max ((x2 : Int) - (x1 : Int)).natAbs ((y2 : Int) - (y1 : Int)).natAbs :=
      Nat.pos_of_ne_zero h0
    rw [if_neg h0]
    refine ⟨List.mem_map.mpr ⟨0, List.mem_range.mpr (by omega), ?_⟩,
            List.mem_map.mpr
              ⟨max ((x2 : Int) - (x1 : Int)).natAbs ((y2 : Int) - (y1 : Int)).natAbs,
               List.mem_range.mpr (by omega), ?_⟩⟩
    · simp
    · rw [Nat.mul_div_cancel_left _ hr, Nat.mul_div_cancel_left _ hr]
      simp only [Prod.mk.injEq]
      constructor
      · split_ifs <;> omega
      · split_ifs <;> omega

/-- Claim C1 (code bug): the claim says `set(x, y, c)` then `get(x, y)`
returns `c` on a fresh BlockCanvas, but on the fresh canvas `new(8, 8)`,
`set(0, 2, Red)` followed by `get(0, 2)` returns `Black`: `get` looks up the
transposed key `(y / 2, x)` while `set` writes `(x, y / 2)` (the key order
used by `rows` and `line` as well). -/
theorem block_set_get_transposed :
    (Block.stateOf ((Block.Canvas.new 8 8).set 0 2 Block.Color.Red)).get 0 2
        = some Block.Color.Black
    ∧ some Block.Color.Black ≠ some Block.Color.Red := by
  decide

/-- Claim C2 (code bug): the claim says DotCanvas `set(x, y)` then
`get(x, y)` returns `true`, but on the fresh canvas `new(8, 8)`, `set(2, 0)`
followed by `get(2, 0)` returns `false`: `get` looks up the transposed key
`(y / 4, x / 2)` while `set` writes `(x / 2, y / 4)`. -/
theorem braille_set_get_transposed :
    ((Braille.Canvas.new 8 8).set 2 0).get 2 0 = false := by
  decide

/-- Claim C3: the line rasterizer of both canvases produces exactly the
ordered point sequence of the spec formula: `dx = |x2-x1|`, `dy = |y2-y1|`,
`dirx/diry ∈ \x7b-1,+1\x7d` by comparison, `r = max(dx, dy)`, points
`(x1 + dirx*floor(i*dx/r), y1 + diry*floor(i*dy/r))` for `i` in `0..=r`, and
the single point `(x1, y1)` when `r = 0`. -/
theorem line_vec_matches_spec_formula (x1 y1 x2 y2 : Nat) :
    Braille.line_vec x1 y1 x2 y2 = rasterSpecSeq x1 y1 x2 y2
    ∧ Block.line_vec x1 y1 x2 y2 = rasterSpecSeq x1 y1 x2 y2 :=
  ⟨braille_line_vec_eq_spec x1 y1 x2 y2, by
    rw [block_line_vec_eq_braille]
    exact braille_line_vec_eq_spec x1 y1 x2 y2⟩

/-- Claim C4 (counterexample): rasterizing `(0,0)→(1,2)` produces the point
`(0, 1)`, but rasterizing `(1,2)→(0,0)` does not (it produces `(1, 1)`
there), so the two directions' point sets differ. -/
theorem line_reverse_sets_differ :
    (0, 1) ∈ Braille.line_vec 0 0 1 2 ∧ (0, 1) ∉ Braille.line_vec 1 2 0 0 := by
  decide

/-- Claim C4 (amended): both rasterization directions contain their two
endpoints (each direction starts at its own first endpoint and ends at its
second), but the full point sets of the two directions can differ. -/
theorem line_reverse_endpoints (x1 y1 x2 y2 : Nat) :
    (x1, y1) ∈ Braille.line_vec x1 y1 x2 y2
    ∧ (x2, y2) ∈ Braille.line_vec x1 y1 x2 y2
    ∧ (x2, y2) ∈ Braille.line_vec x2 y2 x1 y1
    ∧ (x1, y1) ∈ Braille.line_vec x2 y2 x1 y1 :=
  ⟨(endpoints_mem_line_vec x1 y1 x2 y2).1, (endpoints_mem_line_vec x1 y1 x2 y2).2,
   (endpoints_mem_line_vec x2 y2 x1 y1).1, (endpoints_mem_line_vec x2 y2 x1 y1).2⟩

lemma findKV_insertKV_self {α : Type} [DecidableEq α] {β : Type}
    (m : List (α × β)) (k : α) (v : β) : findKV (insertKV m k v) k = some v := by
  induction m with
  | nil => simp [insertKV, findKV]
  | cons kv rest ih =>
    obtain ⟨k', v'⟩ := kv
    by_cases h : k' = k
    · simp [insertKV, h, findKV]
    · simp [insertKV, h, findKV, ih]

/-- Full characterization of `Block.Canvas.unset`: it succeeds exactly when
the addressed cell `(x, y / 2)` currently holds a `Pair`, writing `Black`
into sub-pixel `y % 2`; on a `Char` (text) cell it panics leaving the grid
untouched; on a vacant cell it first materializes the default `Char` cell
and then panics. -/
lemma unset_eq (c : Block.Canvas) (x y : Nat) :
    c.unset x y =
      match findKV c.blocks (x, y / 2) with
      | some (Block.Pixel.Pair cp) =>
          Except.ok { c with blocks := insertKV c.blocks (x, y / 2) (Block.Pixel.Pair (if y % 2 = 0 then ⟨Block.Color.Black, cp.snd⟩ else ⟨cp.fst, Block.Color.Black⟩)) }
      | some (Block.Pixel.Char _ _) => Except.error c
      | none =>
          Except.error { c with blocks := insertKV c.blocks (x, y / 2) Block.Pixel.default } := by
  unfold Block.Canvas.unset
  rcases Nat.mod_two_eq_zero_or_one y with h2 | h2 <;>
    cases hf : findKV c.blocks (x, y / 2) with
    | none =>
        simp [hf, findKV_insertKV_self, Block.Pixel.default, Block.Pixel.indexWrite, h2]
    | some p =>
        cases p <;> simp [hf, Block.Pixel.indexWrite, h2]

/-- Claim C5 (counterexample): on a fresh `BlockCanvas::new(4, 8)` the cell
`(0, 0)` is absent, and `unset(0, 0)` does not succeed — it panics, because
the materialized default cell is the `Char` (text) variant, not a
`Pair\x7bBlack, Black\x7d`. -/
theorem unset_vacant_fails :
    ((Block.Canvas.new 4 8).unset 0 0).isOk = false := by
  decide

/-- Claim C5 (amended): `unset(x, y)` succeeds exactly when the addressed
cell `(x, y / 2)` currently holds a `Pair` variant, writing `Black` into
sub-pixel index `y mod 2`; on an absent cell it materializes the default
cell — which is the `Text` variant `Char(Black, Black, ' ')` — and then
fails; on a `Text` cell it fails with the grid unchanged. -/
theorem unset_requires_pair (c : Block.Canvas) (x y : Nat) :
    c.unset x y =
      match findKV c.blocks (x, y / 2) with
      | some (Block.Pixel.Pair cp) =>
          Except.ok { c with blocks := insertKV c.blocks (x, y / 2) (Block.Pixel.Pair (if y % 2 = 0 then ⟨Block.Color.Black, cp.snd⟩ else ⟨cp.fst, Block.Color.Black⟩)) }
      | some (Block.Pixel.Char _ _) => Except.error c
      | none =>
          Except.error { c with blocks := insertKV c.blocks (x, y / 2) Block.Pixel.default } :=
  unset_eq c x y

/-- Claim C6 (counterexample): `unset(0, 0)` on the fresh
`BlockCanvas::new(4, 8)` fails, yet the state at the failure has the default
`Text` cell newly inserted at `(0, 0)` — the failing call mutated the grid
before failing. -/
theorem unset_vacant_mutates :
    (Block.Canvas.new 4 8).unset 0 0
      = Except.error { blocks := [((0, 0), Block.Pixel.default)], width := 2, height := 2 }
    ∧ ({ blocks := [((0, 0), Block.Pixel.default)], width := 2, height := 2 } : Block.Canvas)
      ≠ Block.Canvas.new 4 8 :=
  ⟨rfl, by decide⟩

/-- Claim C6 (amended): `BlockCanvas::set` always succeeds; a failing
`BlockCanvas::unset` on an occupied cell — necessarily a `Text` (`Char`)
cell — fails with the grid exactly as it was, while `unset` on a vacant
cell fails with the grid equal to the original plus the default `Text` cell
inserted at `(x, y / 2)`; and every failure of `unset` is one of these two,
so `unset` on a vacant cell is the one non-atomic failure. -/
theorem block_ops_atomicity (c : Block.Canvas) (x y : Nat) (col : Block.Color) :
    ((c.set x y col).isOk = true)
    ∧ (∀ cp ch, findKV c.blocks (x, y / 2) = some (Block.Pixel.Char cp ch) →
        c.unset x y = Except.error c)
    ∧ (findKV c.blocks (x, y / 2) = none →
        c.unset x y
          = Except.error { c with blocks := insertKV c.blocks (x, y / 2) Block.Pixel.default })
    ∧ (∀ c', c.unset x y = Except.error c' →
        c' = c ∨ c' = { c with blocks := insertKV c.blocks (x, y / 2) Block.Pixel.default }) := by
  refine ⟨?_, ?_, ?_, ?_⟩
  · unfold Block.Canvas.set
    rcases Nat.mod_two_eq_zero_or_one y with h2 | h2 <;>
      cases hf : findKV c.blocks (x, y / 2) with
      | none =>
          simp [hf, findKV_insertKV_self, Block.Pixel.default, Block.Pixel.indexWrite, h2,
            Except.isOk, Except.toBool]
      | some p =>
          cases p <;> simp [hf, Block.Pixel.indexWrite, h2, Except.isOk, Except.toBool]
  · intro cp ch hf
    rw [unset_eq c x y, hf]
  · intro hf
    rw [unset_eq c x y, hf]
  · intro c' h
    rw [unset_eq c x y] at h
    cases hf : findKV c.blocks (x, y / 2) with
    | none =>
        rw [hf] at h
        right
        exact (Except.error.inj h).symm
    | some p =>
        cases p with
        | Char cp ch =>
            rw [hf] at h
            left
            exact (Except.error.inj h).symm
        | Pair cp =>
            rw [hf] at h
            exact absurd h (by simp)

/-- Claim C6 (witness): the amended atomicity theorem applied to concrete
inputs exercising each hypothesis — the canvas holding the `Text` cell
`Char(Black, Black, ' ')` at `(0, 0)` for the occupied-`Text` case, and the
fresh `BlockCanvas::new(4, 8)` for the vacant case and for the general
failure disjunction. -/
theorem block_ops_atomicity_witness :
    ((Block.Canvas.new 4 8).set 0 0 Block.Color.Red).isOk = true
    ∧ (({ blocks := [((0, 0), Block.Pixel.default)], width := 2, height := 2 } : Block.Canvas).unset 0 0
        = Except.error ({ blocks := [((0, 0), Block.Pixel.default)], width := 2, height := 2 } : Block.Canvas))
    ∧ ((Block.Canvas.new 4 8).unset 0 0
        = Except.error { Block.Canvas.new 4 8 with
            blocks := insertKV (Block.Canvas.new 4 8).blocks (0, 0 / 2) Block.Pixel.default })
    ∧ (({ blocks := [((0, 0), Block.Pixel.default)], width := 2, height := 2 } : Block.Canvas)
          = Block.Canvas.new 4 8
        ∨ ({ blocks := [((0, 0), Block.Pixel.default)], width := 2, height := 2 } : Block.Canvas)
          = { Block.Canvas.new 4 8 with
              blocks := insertKV (Block.Canvas.new 4 8).blocks (0, 0 / 2) Block.Pixel.default }) :=
  ⟨(block_ops_atomicity (Block.Canvas.new 4 8) 0 0 Block.Color.Red).1,
   (block_ops_atomicity
      { blocks := [((0, 0), Block.Pixel.default)], width := 2, height := 2 } 0 0
      Block.Color.Red).2.1 ⟨Block.Color.Black, Block.Color.Black⟩ ' ' rfl,
   (block_ops_atomicity (Block.Canvas.new 4 8) 0 0 Block.Color.Red).2.2.1 rfl,
   (block_ops_atomicity (Block.Canvas.new 4 8) 0 0 Block.Color.Red).2.2.2
      { blocks := [((0, 0), Block.Pixel.default)], width := 2, height := 2 } rfl⟩

lemma stateOf_set_dims (c : Block.Canvas) (x y : Nat) (col : Block.Color) :
    (Block.stateOf (c.set x y col)).width = c.width
    ∧ (Block.stateOf (c.set x y col)).height = c.height := by
  unfold Block.Canvas.set
  rcases Nat.mod_two_eq_zero_or_one y with h2 | h2 <;>
    cases hf : findKV c.blocks (x, y / 2) with
    | none =>
        simp [hf, findKV_insertKV_self, Block.Pixel.default, Block.Pixel.indexWrite, h2,
          Block.stateOf]
    | some p =>
        cases p <;> simp [hf, Block.Pixel.indexWrite, h2, Block.stateOf]

lemma stateOf_unset_dims (c : Block.Canvas) (x y : Nat) :
    (Block.stateOf (c.unset x y)).width = c.width
    ∧ (Block.stateOf (c.unset x y)).height = c.height := by
  rw [unset_eq]
  cases hf : findKV c.blocks (x, y / 2) with
  | none => simp [Block.stateOf]
  | some p => cases p <;> simp [Block.stateOf]

lemma foldl_set_dims (col : Block.Color) (l : List (Nat × Nat)) :
    ∀ c : Block.Canvas,
      (l.foldl (fun cc p => Block.stateOf (cc.set p.1 p.2 col)) c).width = c.width
      ∧ (l.foldl (fun cc p => Block.stateOf (cc.set p.1 p.2 col)) c).height = c.height := by
  induction l with
  | nil => intro c; exact ⟨rfl, rfl⟩
  | cons p rest ih =>
      intro c
      simp only [List.foldl_cons]
      constructor
      · rw [(ih _).1, (stateOf_set_dims c p.1 p.2 col).1]
      · rw [(ih _).2, (stateOf_set_dims c p.1 p.2 col).2]

/-- The BlockCanvas write operations ("prior writes" of the spec). -/
inductive BlockOp where
  | set (x y : Nat) (col : Block.Color)
  | unset (x y : Nat)
  | text (x y : Nat) (fg bg : Block.Color) (s : List Char)
  | line (x1 y1 x2 y2 : Nat) (col : Block.Color)

/-- Run one BlockCanvas write (for `unset`, the state at termination whether
it returned or panicked). -/
def applyBlockOp (c : Block.Canvas) : BlockOp → Block.Canvas
  | BlockOp.set x y col => Block.stateOf (c.set x y col)
  | BlockOp.unset x y => Block.stateOf (c.unset x y)
  | BlockOp.text x y fg bg s => c.text x y fg bg s
  | BlockOp.line x1 y1 x2 y2 col => c.line x1 y1 x2 y2 col

/-- Run a sequence of BlockCanvas writes. -/
def applyBlockOps (c : Block.Canvas) (ops : List BlockOp) : Block.Canvas :=
  ops.foldl applyBlockOp c

lemma applyBlockOp_dims (c : Block.Canvas) (op : BlockOp) :
    (applyBlockOp c op).width = c.width ∧ (applyBlockOp c op).height = c.height := by
  cases op with
  | set x y col => exact stateOf_set_dims c x y col
  | unset x y => exact stateOf_unset_dims c x y
  | text x y fg bg s => exact ⟨rfl, rfl⟩
  | line x1 y1 x2 y2 col => exact foldl_set_dims col (Block.line_vec x1 y1 x2 y2) c

lemma applyBlockOps_dims (ops : List BlockOp) :
    ∀ c : Block.Canvas,
      (applyBlockOps c ops).width = c.width ∧ (applyBlockOps c ops).height = c.height := by
  induction ops with
  | nil => intro c; exact ⟨rfl, rfl⟩
  | cons op rest ih =>
      intro c
      constructor
      · rw [show applyBlockOps c (op :: rest) = applyBlockOps (applyBlockOp c op) rest from rfl,
          (ih _).1, (applyBlockOp_dims c op).1]
      · rw [show applyBlockOps c (op :: rest) = applyBlockOps (applyBlockOp c op) rest from rfl,
          (ih _).2, (applyBlockOp_dims c op).2]

lemma braille_foldl_set_dims (l : List (Nat × Nat)) :
    ∀ c : Braille.Canvas,
      (l.foldl (fun cc p => cc.set p.1 p.2) c).width = c.width
      ∧ (l.foldl (fun cc p => cc.set p.1 p.2) c).height = c.height := by
  induction l with
  | nil => intro c; exact ⟨rfl, rfl⟩
  | cons p rest ih =>
      intro c
      simp only [List.foldl_cons]
      exact ⟨(ih _).1, (ih _).2⟩

/-- The DotCanvas write operations ("prior writes" of the spec). -/
inductive DotOp where
  | set (x y : Nat)
  | unset (x y : Nat)
  | toggle (x y : Nat)
  | line (x1 y1 x2 y2 : Nat)

/-- Run one DotCanvas write. -/
def applyDotOp (c : Braille.Canvas) : DotOp → Braille.Canvas
  | DotOp.set x y => c.set x y
  | DotOp.unset x y => c.unset x y
  | DotOp.toggle x y => c.toggle x y
  | DotOp.line x1 y1 x2 y2 => c.line x1 y1 x2 y2

/-- Run a sequence of DotCanvas writes. -/
def applyDotOps (c : Braille.Canvas) (ops : List DotOp) : Braille.Canvas :=
  ops.foldl applyDotOp c

lemma applyDotOp_dims (c : Braille.Canvas) (op : DotOp) :
    (applyDotOp c op).width = c.width ∧ (applyDotOp c op).height = c.height := by
  cases op with
  | set x y => exact ⟨rfl, rfl⟩
  | unset x y => exact ⟨rfl, rfl⟩
  | toggle x y => exact ⟨rfl, rfl⟩
  | line x1 y1 x2 y2 => exact braille_foldl_set_dims (Braille.line_vec x1 y1 x2 y2) c

lemma applyDotOps_dims (ops : List DotOp) :
    ∀ c : Braille.Canvas,
      (applyDotOps c ops).width = c.width ∧ (applyDotOps c ops).height = c.height := by
  induction ops with
  | nil => intro c; exact ⟨rfl, rfl⟩
  | cons op rest ih =>
      intro c
      constructor
      · rw [show applyDotOps c (op :: rest) = applyDotOps (applyDotOp c op) rest from rfl,
          (ih _).1, (applyDotOp_dims c op).1]
      · rw [show applyDotOps c (op :: rest) = applyDotOps (applyDotOp c op) rest from rfl,
          (ih _).2, (applyDotOp_dims c op).2]

/-- Claim C7: after any sequence of writes on either canvas, `clear()`
restores the freshly constructed canvas: `get` returns the default (`Black`
or `false`) everywhere, the render reverts to that of the fresh canvas with
the originally configured width/height, and the configured bounds are
unaffected. -/
theorem clear_resets_canvases (w h : Nat) (bops : List BlockOp) (dops : List DotOp) (x y : Nat) :
    (applyBlockOps (Block.Canvas.new w h) bops).clear = Block.Canvas.new w h
    ∧ ((applyBlockOps (Block.Canvas.new w h) bops).clear).get x y = some Block.Color.Black
    ∧ ((applyBlockOps (Block.Canvas.new w h) bops).clear).rows = (Block.Canvas.new w h).rows
    ∧ (applyDotOps (Braille.Canvas.new w h) dops).clear = Braille.Canvas.new w h
    ∧ ((applyDotOps (Braille.Canvas.new w h) dops).clear).get x y = false
    ∧ ((applyDotOps (Braille.Canvas.new w h) dops).clear).rows = (Braille.Canvas.new w h).rows := by
  have hb := applyBlockOps_dims bops (Block.Canvas.new w h)
  have hd := applyDotOps_dims dops (Braille.Canvas.new w h)
  have hbc : (applyBlockOps (Block.Canvas.new w h) bops).clear = Block.Canvas.new w h := by
    show Block.Canvas.mk [] (applyBlockOps (Block.Canvas.new w h) bops).width
        (applyBlockOps (Block.Canvas.new w h) bops).height = Block.Canvas.new w h
    rw [hb.1, hb.2]
    rfl
  have hdc : (applyDotOps (Braille.Canvas.new w h) dops).clear = Braille.Canvas.new w h := by
    show Braille.Canvas.mk [] (applyDotOps (Braille.Canvas.new w h) dops).width
        (applyDotOps (Braille.Canvas.new w h) dops).height = Braille.Canvas.new w h
    rw [hd.1, hd.2]
    rfl
  refine ⟨hbc, ?_, congrArg Block.Canvas.rows hbc, hdc, ?_, congrArg Braille.Canvas.rows hdc⟩
  · rw [hbc]
    rfl
  · rw [hdc]
    rfl

/-- Claim C8 (counterexample): after `DotCanvas::new(2, 4)` and `set(0, 0)`,
`frame()` is not a single-row, single-cell string: `new(2, 4)` stores cell
bounds width 1 and height 1, so the render spans 2 rows of 2 cells. -/
theorem dot_frame_not_single_cell :
    ((Braille.Canvas.new 2 4).set 0 0).rows.length = 2
    ∧ ((Braille.Canvas.new 2 4).set 0 0).frame ≠ "⠁" := by
  decide

/-- Claim C8 (amended): after `DotCanvas::new(2, 4)` and `set(0, 0)`,
`frame()` yields two rows of two cells; the top-left cell is the Braille
character at `0x2800 + bit(0, 0)` (U+2801) and the other cells are spaces. -/
theorem dot_frame_example :
    ((Braille.Canvas.new 2 4).set 0 0).rows = ["⠁ ", "  "]
    ∧ ((Braille.Canvas.new 2 4).set 0 0).frame = "⠁ \n  "
    ∧ "⠁" = String.singleton (Char.ofNat (0x2800 + Braille.PIXEL_MAP 0 0)) := by
  decide

/-- Claim C9: `teleport(newX, newY)` always stores the unclamped target
floats as the new position, regardless of brush state, and when the brush is
up the owned DotCanvas is left completely unchanged. -/
theorem teleport_sets_position (t : Turtle) (nx ny : Float) :
    (t.teleport nx ny).x = nx
    ∧ (t.teleport nx ny).y = ny
    ∧ (t.brush = false → (t.teleport nx ny).cvs = t.cvs) := by
  refine ⟨rfl, rfl, ?_⟩
  intro hb
  simp [Turtle.teleport, hb]

/-- Claim C9 (witness): a brush-up turtle teleported to `(1, 2)` ends at
`(1, 2)` with its canvas untouched. -/
theorem teleport_sets_position_witness :
    ((Turtle.up (Turtle.new 0 0)).teleport 1 2).x = 1
    ∧ ((Turtle.up (Turtle.new 0 0)).teleport 1 2).y = 2
    ∧ ((Turtle.up (Turtle.new 0 0)).teleport 1 2).cvs = (Turtle.up (Turtle.new 0 0)).cvs :=
  ⟨(teleport_sets_position (Turtle.up (Turtle.new 0 0)) 1 2).1,
   (teleport_sets_position (Turtle.up (Turtle.new 0 0)) 1 2).2.1,
   (teleport_sets_position (Turtle.up (Turtle.new 0 0)) 1 2).2.2 rfl⟩

/-- Claim C10: `Turtle::new` and `Turtle::from_canvas` both start with the
brush down (`true`) and heading `0.0` degrees; `Turtle::new` owns
`Canvas::new(0, 0)`. -/
theorem turtle_initial_state (x y : Float) (cvs : Braille.Canvas) :
    (Turtle.new x y).brush = true
    ∧ (Turtle.new x y).rotation = 0.0
    ∧ (Turtle.new x y).cvs = Braille.Canvas.new 0 0
    ∧ (Turtle.from_canvas x y cvs).brush = true
    ∧ (Turtle.from_canvas x y cvs).rotation = 0.0
    ∧ (Turtle.from_canvas x y cvs).cvs = cvs :=
  ⟨rfl, rfl, rfl, rfl, rfl, rfl⟩
